import Mathlib

/-!
Shallow embedding of the furniture-shop conversation bot
(src/furniture_bot.py): the sqlite-backed data model (users, products,
cart, orders tables), the Database access methods, and the FurnitureBot
dialog handlers that the frozen claims talk about.  Monetary values
(sqlite REAL columns holding decimal inputs) are modelled as rationals;
timestamps as natural numbers; the per-user `context.user_data` bag as an
explicit structure.  Telegram transport calls (message sends, keyboard
renders) carry no persistent state and are dropped; every handler is
translated as a pure function on the database, the session bag and the
returned ConversationHandler state constant.
-/

namespace FurnitureModel

/-- The 17 conversation state constants from `range(17)` in the source. -/
inductive DState where
  | MAIN_MENU | CATALOG | PRODUCT_VIEW | ADMIN_MENU | ADD_PRODUCT | EDIT_PRODUCT
  | WAITING_NAME | WAITING_DESCRIPTION | WAITING_PRICE | WAITING_CATEGORY
  | WAITING_IMAGES | WAITING_EDIT_FIELD | USER_PROFILE | CART_VIEW
  | ORDER_PHONE | ORDER_ADDRESS | ORDER_COMMENT
deriving DecidableEq

/-- Row of the `users` table. -/
structure User where
  id : Nat
  username : Option String := none
  first_name : Option String := none
  last_name : Option String := none
  phone : Option String := none
  is_admin : Bool := false
deriving DecidableEq

/-- Row of the `products` table (id is assigned, created_at recorded). -/
structure ProductRow where
  id : Nat
  name : String
  description : String
  price : Rat
  category : String
  images : List String
  created_at : Nat
  is_active : Bool
deriving DecidableEq

/-- The value domain of the Python float constructor: not-a-number, a
signed infinity, or a finite value.  A finite result of the string
conversion is kept as the exact rational the literal denotes; the
conversion's rounding to IEEE double (overflow to infinity, underflow
to zero) matters to the program only through the `price <= 0` guard and
is embedded exactly there (`pyLeZero`). -/
inductive PyFloat where
  | nan
  | inf (neg : Bool)
  | finite (q : Rat)
deriving DecidableEq

/-- Powers of two by plain structural recursion, so that the kernel can
evaluate them at witnesses (the ambient power operator does not step
for concrete exponents of this size). -/
def pow2 : Nat → Nat
  | 0 => 1
  | n + 1 => 2 * pow2 n

/-- Powers of ten by plain structural recursion, for the same reason. -/
def pow10 : Nat → Nat
  | 0 => 1
  | n + 1 => 10 * pow10 n

theorem pow2_eq (n : Nat) : pow2 n = 2 ^ n := by
  induction n with
  | zero => rfl
  | succ n ih => simp [pow2, ih, pow_succ, Nat.mul_comm]

theorem pow10_eq (n : Nat) : pow10 n = 10 ^ n := by
  induction n with
  | zero => rfl
  | succ n ih => simp [pow10, ih, pow_succ, Nat.mul_comm]

/-- Half the least positive subnormal double, 2^(-1075): a positive
real rounds to +0.0 under the correctly rounded string-to-double
conversion exactly when it is at most this bound (the bound itself ties
to the even candidate 0.0). -/
def halfLeastSubnormal : Rat := mkRat 1 (pow2 1075)

/-- The comparison `v <= 0` as the program runs it on the converted
price: false for nan (every comparison with nan is false) and for
positive infinity, true for negative infinity; a finite exact value
compares through its rounded double, so it yields true exactly on the
values of at most 2^(-1075) - zero, every negative value, and the
positive underflow range that converts to +0.0. -/
def pyLeZero : PyFloat → Bool
  | .nan => false
  | .inf neg => neg
  | .finite q => decide (q ≤ halfLeastSubnormal)

/-- The `Product` dataclass used as the in-session authoring draft;
all fields default exactly as in the dataclass definition. -/
structure Product where
  id : Option Nat := none
  name : String := ""
  description : String := ""
  price : PyFloat := .finite 0
  category : String := ""
  images : List String := []
  created_at : Option Nat := none
  is_active : Bool := true
deriving DecidableEq

/-- Row of the `cart` table, primary key (user_id, product_id). -/
structure CartRow where
  user_id : Nat
  product_id : Nat
  quantity : Nat
deriving DecidableEq

/-- The `CartItem` dataclass: result row of the cart/products join. -/
structure CartItem where
  product_id : Nat
  quantity : Nat
  product_name : String
  product_price : Rat
deriving DecidableEq

/-- One line of the JSON `products` column of an order, as built by
`finish_order`. -/
structure OrderLine where
  product_id : Nat
  name : String
  price : Rat
  quantity : Nat
  total : Rat
deriving DecidableEq

/-- Row of the `orders` table. -/
structure OrderRow where
  id : Nat
  user_id : Nat
  products : List OrderLine
  total_amount : Rat
  phone : String
  address : String
  comment : String
  status : String
deriving DecidableEq

/-- The sqlite database: one list per table, plus the AUTOINCREMENT
cursor for order ids. -/
structure Database where
  users : List User := []
  products : List ProductRow := []
  cart : List CartRow := []
  orders : List OrderRow := []
  next_order_id : Nat := 1
deriving DecidableEq

/-- `SELECT * FROM users WHERE id = ?`. -/
def Database.get_user (db : Database) (user_id : Nat) : Option User :=
  db.users.find? fun u => u.id == user_id

/-- `INSERT OR REPLACE INTO users ...`: REPLACE deletes the conflicting
row (same primary key) and inserts the new one. -/
def Database.save_user (db : Database) (u : User) : Database :=
  { db with users := (db.users.filter fun v => !(v.id == u.id)) ++ [u] }

/-- `SELECT ... FROM products WHERE category = ? AND is_active = TRUE
ORDER BY created_at DESC`: newest first. -/
def newestFirst (p q : ProductRow) : Prop :=
  q.created_at ≤ p.created_at

instance : DecidableRel newestFirst :=
  fun p q => inferInstanceAs (Decidable (q.created_at ≤ p.created_at))

instance : IsTotal ProductRow newestFirst :=
  ⟨fun a b => le_total b.created_at a.created_at⟩

instance : IsTrans ProductRow newestFirst :=
  ⟨fun _ _ _ hab hbc => le_trans hbc hab⟩

def Database.get_products_by_category (db : Database) (category : String) :
    List ProductRow :=
  List.insertionSort newestFirst
    (db.products.filter fun p => p.category == category && p.is_active)

/-- `SELECT ... FROM products WHERE id = ?` (no is_active filter). -/
def Database.get_product_by_id (db : Database) (product_id : Nat) :
    Option ProductRow :=
  db.products.find? fun p => p.id == product_id

/-- `UPDATE products SET is_active = FALSE WHERE id = ?`: soft delete. -/
def Database.delete_product (db : Database) (product_id : Nat) : Database :=
  { db with
    products := db.products.map fun p =>
      if p.id == product_id then { p with is_active := false } else p }

/-- `SELECT c.product_id, c.quantity, p.name, p.price FROM cart c JOIN
products p ON c.product_id = p.id WHERE c.user_id = ? AND p.is_active =
TRUE`. -/
def Database.get_cart_items (db : Database) (user_id : Nat) : List CartItem :=
  (db.cart.filter fun c => c.user_id == user_id).filterMap fun c =>
    (db.products.find? fun p => p.id == c.product_id).bind fun p =>
      if p.is_active then
        some ⟨c.product_id, c.quantity, p.name, p.price⟩
      else none

/-- `INSERT OR REPLACE INTO cart (user_id, product_id, quantity) VALUES
(?, ?, COALESCE((SELECT quantity FROM cart WHERE user_id = ? AND
product_id = ?), 0) + ?)`: the REPLACE removes the conflicting row and
inserts one carrying the accumulated quantity. -/
def Database.add_to_cart (db : Database) (user_id product_id : Nat)
    (quantity : Nat := 1) : Database :=
  let old := (((db.cart.find? fun c =>
      c.user_id == user_id && c.product_id == product_id).map
        CartRow.quantity).getD 0)
  { db with
    cart := (db.cart.filter fun c =>
        !(c.user_id == user_id && c.product_id == product_id))
      ++ [⟨user_id, product_id, old + quantity⟩] }

/-- `DELETE FROM cart WHERE user_id = ? AND product_id = ?`. -/
def Database.remove_from_cart (db : Database) (user_id product_id : Nat) :
    Database :=
  { db with
    cart := db.cart.filter fun c =>
      !(c.user_id == user_id && c.product_id == product_id) }

/-- `DELETE FROM cart WHERE user_id = ?`. -/
def Database.clear_cart (db : Database) (user_id : Nat) : Database :=
  { db with cart := db.cart.filter fun c => !(c.user_id == user_id) }

/-- `INSERT INTO orders (user_id, products, total_amount, phone, address,
comment) VALUES ...` followed by `lastrowid`; status defaults to new. -/
def Database.create_order (db : Database) (user_id : Nat)
    (products : List OrderLine) (total : Rat)
    (phone address comment : String) : Nat × Database :=
  let oid := db.next_order_id
  (oid,
   { db with
     orders := db.orders ++
       [{ id := oid, user_id := user_id, products := products,
          total_amount := total, phone := phone, address := address,
          comment := comment, status := "new" }],
     next_order_id := oid + 1 })

/-- The per-user `context.user_data` dictionary: the keys the handlers
read and write. -/
structure UserData where
  order_items : Option (List CartItem) := none
  order_phone : Option String := none
  order_address : Option String := none
  order_comment : Option String := none
  new_product : Option Product := none
  current_category : Option String := none
  current_product : Option Nat := none
deriving DecidableEq

/-- The identity fields Telegram supplies with every update
(`update.effective_user`). -/
structure TgUser where
  id : Nat
  username : Option String := none
  first_name : Option String := none
  last_name : Option String := none
deriving DecidableEq

/-- Database + session bag + ConversationHandler state for one user. -/
structure Config where
  db : Database
  ud : UserData
  state : DState
deriving DecidableEq


/-- `str.strip()`: drop whitespace from both ends (over the char list,
so that it evaluates inside the kernel). -/
def pyStrip (s : String) : String :=
  ⟨((s.toList.dropWhile Char.isWhitespace).reverse.dropWhile
      Char.isWhitespace).reverse⟩

/-- Exact embedding of a natural number into the rationals (the cast
spelled so that it evaluates inside the kernel). -/
def ratOfNat (n : Nat) : Rat := mkRat n 1

namespace FurnitureBot

/-- `user_id in ADMIN_IDS or (user and user.is_admin)`. -/
def is_admin (adminIds : List Nat) (db : Database) (user_id : Nat) : Bool :=
  adminIds.contains user_id ||
    (match db.get_user user_id with
     | some u => u.is_admin
     | none => false)

/-- `/start`: upserts the user row (is_admin from the ADMIN_IDS set,
phone not passed, hence NULL) and returns MAIN_MENU.  It does not touch
`context.user_data`. -/
def start (adminIds : List Nat) (tg : TgUser) (c : Config) : Config :=
  let u : User :=
    { id := tg.id, username := tg.username, first_name := tg.first_name,
      last_name := tg.last_name, phone := none,
      is_admin := adminIds.contains tg.id }
  { c with db := c.db.save_user u, state := .MAIN_MENU }

/-- `/cancel` fallback: sends a notice and delegates to `start`; it is
registered as a ConversationHandler fallback, hence reachable from every
state, and never clears `context.user_data`. -/
def cancel (adminIds : List Nat) (tg : TgUser) (c : Config) : Config :=
  start adminIds tg c

/-- Outcome of the add-to-cart button handler. -/
inductive CartAck where
  | notFound | added
deriving DecidableEq

/-- `add_to_cart` handler: looks the product up by id (active or not);
missing product answers an alert and leaves everything unchanged,
otherwise the row is inserted/accumulated.  Always stays PRODUCT_VIEW. -/
def add_to_cart (db : Database) (user_id product_id : Nat) :
    Database × CartAck × DState :=
  match db.get_product_by_id product_id with
  | none => (db, .notFound, .PRODUCT_VIEW)
  | some _ => (db.add_to_cart user_id product_id 1, .added, .PRODUCT_VIEW)

/-- `checkout` handler (entered from CART_VIEW): empty cart re-renders
the cart screen; otherwise the cart read is snapshotted into
`user_data[order_items]` and the dialog moves to ORDER_PHONE. -/
def checkout (db : Database) (ud : UserData) (user_id : Nat) : Config :=
  let cart_items := db.get_cart_items user_id
  if cart_items.isEmpty then ⟨db, ud, .CART_VIEW⟩
  else ⟨db, { ud with order_items := some cart_items }, .ORDER_PHONE⟩

/-- `get_order_phone`: strips the text, rejects length < 10 staying in
ORDER_PHONE, else stores it and advances to ORDER_ADDRESS. -/
def get_order_phone (ud : UserData) (text : String) : UserData × DState :=
  let phone := pyStrip text
  if phone.length < 10 then (ud, .ORDER_PHONE)
  else ({ ud with order_phone := some phone }, .ORDER_ADDRESS)

/-- `get_order_address`: strips the text, rejects length < 10 staying in
ORDER_ADDRESS, else stores it and advances to ORDER_COMMENT. -/
def get_order_address (ud : UserData) (text : String) : UserData × DState :=
  let address := pyStrip text
  if address.length < 10 then (ud, .ORDER_ADDRESS)
  else ({ ud with order_address := some address }, .ORDER_COMMENT)

/-- Text branch of `get_order_comment`: stores the stripped comment and
waits in ORDER_COMMENT for the confirm button. -/
def get_order_comment_text (ud : UserData) (text : String) :
    UserData × DState :=
  ({ ud with order_comment := some (pyStrip text) }, .ORDER_COMMENT)

/-- The order lines dictionary list built inside `finish_order`. -/
def order_products_of (items : List CartItem) : List OrderLine :=
  items.map fun it =>
    { product_id := it.product_id, name := it.product_name,
      price := it.product_price, quantity := it.quantity,
      total := it.product_price * ratOfNat it.quantity }

/-- The running `total` accumulated inside `finish_order`. -/
def order_total_of (items : List CartItem) : Rat :=
  (items.map fun it => it.product_price * ratOfNat it.quantity).sum

/-- `finish_order`: reads the checkout snapshot and the collected
phone/address/comment from `user_data` (empty defaults), commits the
order and clears the cart when the snapshot is non-empty, pops the four
order keys in every branch, and returns MAIN_MENU. -/
def finish_order (db : Database) (ud : UserData) (user_id : Nat) : Config :=
  let cart_items := ud.order_items.getD []
  let phone := ud.order_phone.getD ""
  let address := ud.order_address.getD ""
  let comment := ud.order_comment.getD ""
  let ud' : UserData :=
    { ud with
      order_items := none
      order_phone := none
      order_address := none
      order_comment := none }
  if cart_items.isEmpty then ⟨db, ud', .MAIN_MENU⟩
  else
    let r := db.create_order user_id (order_products_of cart_items)
      (order_total_of cart_items) phone address comment
    ⟨(r.2).clear_cart user_id, ud', .MAIN_MENU⟩

/-- `get_product_name`: stripped name shorter than 3 is rejected staying
in WAITING_NAME; otherwise it is stored on the draft and the dialog
advances.  (The draft exists whenever WAITING_NAME is reachable, since
`start_add_product` creates it.) -/
def get_product_name (ud : UserData) (text : String) : UserData × DState :=
  let name := pyStrip text
  if name.length < 3 then (ud, .WAITING_NAME)
  else
    ({ ud with new_product := ud.new_product.map fun d => { d with name } },
     .WAITING_DESCRIPTION)

/-- `get_product_description`: stripped description shorter than 10 is
rejected staying in WAITING_DESCRIPTION; otherwise stored, advancing. -/
def get_product_description (ud : UserData) (text : String) :
    UserData × DState :=
  let description := pyStrip text
  if description.length < 10 then (ud, .WAITING_DESCRIPTION)
  else
    ({ ud with new_product := ud.new_product.map fun d =>
        { d with description } },
     .WAITING_PRICE)

end FurnitureBot

/-- Digit run split, for the decimal grammar of the Python float call. -/
def natOfDigits (ds : List Char) : Nat :=
  ds.foldl (fun a c => a * 10 + (c.toNat - 48)) 0

/-- Optional leading sign; true means negative. -/
def parseSign : List Char → Bool × List Char
  | '+' :: rest => (false, rest)
  | '-' :: rest => (true, rest)
  | cs => (false, cs)

/-- Maximal run of ASCII digits and PEP 515 underscore separators. -/
def digitRun (cs : List Char) : List Char × List Char :=
  (cs.takeWhile fun c => c.isDigit || c == '_',
   cs.dropWhile fun c => c.isDigit || c == '_')

/-- Tail check for PEP 515 validity: every underscore of the run is
directly followed by a digit. -/
def pep515Tail : List Char → Bool
  | [] => true
  | ['_'] => false
  | '_' :: c :: rest => c.isDigit && pep515Tail rest
  | _ :: rest => pep515Tail rest

/-- PEP 515 validity of a digit/underscore run: empty, or starting with
a digit and with every underscore directly followed by a digit — which,
on a run drawn from digits and underscores only, puts every underscore
strictly between two digits. -/
def pep515Ok (cs : List Char) : Bool :=
  match cs with
  | [] => true
  | c :: _ => c.isDigit && pep515Tail cs

/-- Exponent suffix of a float literal: optional sign and a non-empty
PEP 515 digit run consuming the whole remainder; scales the mantissa
numerator/denominator by the corresponding power of ten. -/
def pyExp (inum : Int) (den : Nat) (cs : List Char) : Option PyFloat :=
  let s := parseSign cs
  let run := digitRun s.2
  if run.1.isEmpty || !(pep515Ok run.1) || !(run.2.isEmpty) then none
  else
    let e := natOfDigits (run.1.filter Char.isDigit)
    if s.1 then some (.finite (mkRat inum (den * pow10 e)))
    else some (.finite (mkRat (inum * (pow10 e : Int)) den))

/-- The string grammar of the Python `float(...)` constructor as called
in `get_product_price` (surrounding whitespace is already stripped by
the handler): after an optional sign, either one of the
case-insensitive spellings inf, infinity, nan, or a decimal literal —
digits with an optional fractional point and at least one digit
overall, PEP 515 underscore separators admitted between digits, and an
optional exponent.  A finite literal is kept as the exact rational it
denotes; the conversion's rounding to IEEE double matters to the
program only through the `price <= 0` guard and is embedded there
(`pyLeZero`).  CPython's canonicalization of non-ASCII decimal digits
and whitespace to their ASCII counterparts is a pre-pass outside this
model, which reads the input over the ASCII repertoire. -/
def pyFloat (s : String) : Option PyFloat :=
  let s0 := parseSign s.toList
  let low := s0.2.map Char.toLower
  if low == "inf".toList || low == "infinity".toList then some (.inf s0.1)
  else if low == "nan".toList then some .nan
  else
    let ipr := digitRun s0.2
    let fr : List Char × List Char :=
      match ipr.2 with
      | '.' :: rest => digitRun rest
      | _ => ([], ipr.2)
    if !(pep515Ok ipr.1) || !(pep515Ok fr.1) then none
    else
      let ip := ipr.1.filter Char.isDigit
      let fp := fr.1.filter Char.isDigit
      if ip.isEmpty && fp.isEmpty then none
      else
        let num : Nat := natOfDigits ip * pow10 fp.length + natOfDigits fp
        let den : Nat := pow10 fp.length
        let inum : Int := if s0.1 then -(num : Int) else (num : Int)
        match fr.2 with
        | [] => some (.finite (mkRat inum den))
        | 'e' :: rest => pyExp inum den rest
        | 'E' :: rest => pyExp inum den rest
        | _ => none

/-- Exponent suffix of a plain decimal literal, for `decimalValue`. -/
def decExp (inum : Int) (den : Nat) (cs : List Char) : Option Rat :=
  let s := parseSign cs
  let ed := s.2.takeWhile Char.isDigit
  let rest := s.2.dropWhile Char.isDigit
  if ed.isEmpty || !rest.isEmpty then none
  else
    let e := natOfDigits ed
    if s.1 then some (mkRat inum (den * pow10 e))
    else some (mkRat (inum * (pow10 e : Int)) den)

/-- Written to the words of the spec sentence for the price field — the
input "parses as a positive decimal" — this is the plain
decimal-literal grammar: optional sign, digits with an optional
fractional point and at least one digit overall, optional exponent, and
the exact rational the literal denotes.  It exists only to compare the
program's acceptance against that reading; the program itself parses
with `pyFloat`, which further admits nan, the signed infinities and
underscored digit groups. -/
def decimalValue (s : String) : Option Rat :=
  let s0 := parseSign s.toList
  let ip := s0.2.takeWhile Char.isDigit
  let cs1 := s0.2.dropWhile Char.isDigit
  let fr : List Char × List Char :=
    match cs1 with
    | '.' :: rest => (rest.takeWhile Char.isDigit, rest.dropWhile Char.isDigit)
    | _ => ([], cs1)
  if ip.isEmpty && fr.1.isEmpty then none
  else
    let num : Nat := natOfDigits ip * pow10 fr.1.length + natOfDigits fr.1
    let den : Nat := pow10 fr.1.length
    let inum : Int := if s0.1 then -(num : Int) else (num : Int)
    match fr.2 with
    | [] => some (mkRat inum den)
    | 'e' :: rest => decExp inum den rest
    | 'E' :: rest => decExp inum den rest
    | _ => none

/-- `text.strip().replace(" ", "").replace(",", ".")`: every space is
dropped and every comma becomes a point (single-character replace). -/
def normalize_price_text (s : String) : String :=
  ⟨((pyStrip s).toList.filter fun c => !(c == ' ')).map fun c =>
    if c == ',' then '.' else c⟩

namespace FurnitureBot

/-- `get_product_price`: normalizes the text, parses it with `float`,
and re-prompts in WAITING_PRICE when the parse fails or the parsed
value satisfies `price <= 0`; otherwise it stores the price on the
draft and advances to WAITING_CATEGORY.  Because every comparison with
nan is false, nan passes the guard, as do positive infinity and every
finite value converting to a positive double. -/
def get_product_price (ud : UserData) (text : String) : UserData × DState :=
  match pyFloat (normalize_price_text text) with
  | none => (ud, .WAITING_PRICE)
  | some price =>
    if pyLeZero price then (ud, .WAITING_PRICE)
    else
      ({ ud with new_product := ud.new_product.map fun d =>
          { d with price } },
       .WAITING_CATEGORY)

/-- Outcome of the admin delete-request handler. -/
inductive DelOutcome where
  | unauthorized | notFound | confirmPrompt
deriving DecidableEq

/-- `delete_product` handler: re-checks `is_admin` at the transition;
non-admin gets an alert with no side effect, a missing id gets a
not-found alert, otherwise the confirm keyboard is rendered.  All
branches keep the database and stay in PRODUCT_VIEW. -/
def delete_product (adminIds : List Nat) (db : Database)
    (user_id product_id : Nat) : Database × DelOutcome × DState :=
  if is_admin adminIds db user_id then
    match db.get_product_by_id product_id with
    | none => (db, .notFound, .PRODUCT_VIEW)
    | some _ => (db, .confirmPrompt, .PRODUCT_VIEW)
  else (db, .unauthorized, .PRODUCT_VIEW)

/-- `confirm_delete_product` handler: performs the soft delete with no
`is_admin` re-check and renders the category listing (state CATALOG in
every non-raising branch). -/
def confirm_delete_product (db : Database) (ud : UserData)
    (user_id product_id : Nat) : Database × DState :=
  (db.delete_product product_id, .CATALOG)

end FurnitureBot

/-- A cart mutation performed by the user (the three cart-table
operations the Database exposes). -/
inductive CartOp where
  | add (product_id quantity : Nat)
  | remove (product_id : Nat)
  | clear
deriving DecidableEq

def applyCartOp (user_id : Nat) (db : Database) : CartOp → Database
  | .add pid qty => db.add_to_cart user_id pid qty
  | .remove pid => db.remove_from_cart user_id pid
  | .clear => db.clear_cart user_id

/-- An event deliverable between entering ORDER_PHONE and the final
finish-order press: a cart mutation by the same user, or a free-text
message dispatched by the ConversationHandler to the handler of the
current ORDER_* state. -/
inductive MidEvent where
  | cartOp (op : CartOp)
  | text (s : String)
deriving DecidableEq

def stepMid (user_id : Nat) (c : Config) : MidEvent → Config
  | .cartOp op => ⟨applyCartOp user_id c.db op, c.ud, c.state⟩
  | .text s =>
    match c.state with
    | .ORDER_PHONE =>
      let r := FurnitureBot.get_order_phone c.ud s
      ⟨c.db, r.1, r.2⟩
    | .ORDER_ADDRESS =>
      let r := FurnitureBot.get_order_address c.ud s
      ⟨c.db, r.1, r.2⟩
    | .ORDER_COMMENT =>
      let r := FurnitureBot.get_order_comment_text c.ud s
      ⟨c.db, r.1, r.2⟩
    | _ => c

end FurnitureModel

/-! ### Shared helper lemmas -/

namespace FurnitureModel

/-- Rows surviving a filter on the negation of a key never match the
key. -/
theorem filter_not_filter {α : Type} (p : α → Bool) (l : List α) :
    (l.filter fun a => !(p a)).filter p = [] := by
  induction l with
  | nil => rfl
  | cons a l ih =>
    cases hp : p a <;> simp [List.filter_cons, hp, ih]

theorem find?_filter_not {α : Type} (p : α → Bool) (l : List α) :
    (l.filter fun a => !(p a)).find? p = none := by
  rw [List.find?_eq_none]
  intro x hx
  have hmem := (List.mem_filter.mp hx).2
  simp only [Bool.not_eq_eq_eq_not, Bool.not_true] at hmem
  simp [hmem]

/-- The single cart row the database holds for a (user, product) pair,
as a quantity with default 0 (the COALESCE sub-select of the insert). -/
def cart_qty (db : Database) (user_id product_id : Nat) : Nat :=
  (((db.cart.find? fun c =>
      c.user_id == user_id && c.product_id == product_id).map
        CartRow.quantity).getD 0)

/-- The rows the cart table holds for a (user, product) pair. -/
def pair_rows (db : Database) (user_id product_id : Nat) : List CartRow :=
  db.cart.filter fun c => c.user_id == user_id && c.product_id == product_id

theorem cart_qty_add_to_cart (db : Database) (user_id product_id qty : Nat) :
    cart_qty (db.add_to_cart user_id product_id qty) user_id product_id
      = cart_qty db user_id product_id + qty := by
  unfold cart_qty Database.add_to_cart
  rw [List.find?_append, find?_filter_not]
  simp [List.find?_cons]

theorem pair_rows_add_to_cart (db : Database) (user_id product_id qty : Nat) :
    pair_rows (db.add_to_cart user_id product_id qty) user_id product_id
      = [⟨user_id, product_id, cart_qty db user_id product_id + qty⟩] := by
  unfold pair_rows Database.add_to_cart cart_qty
  rw [List.filter_append, filter_not_filter]
  simp [List.filter_cons]

end FurnitureModel

/-! ### C7: repeated adds accumulate into a single row -/

namespace FurnitureModel

/-- C7: for every user and product, calling addToCart with quantity 1
twice in sequence from a cart holding no row for that product yields
exactly one cart row for the pair, with quantity 2; and in general one
add grows the quantity of the single pair row by the added amount. -/
theorem claim7_add_to_cart_accumulates (db : Database) (user_id product_id : Nat)
    (h0 : (db.cart.find? fun c =>
        c.user_id == user_id && c.product_id == product_id) = none) :
    pair_rows ((db.add_to_cart user_id product_id 1).add_to_cart
        user_id product_id 1) user_id product_id
      = [⟨user_id, product_id, 2⟩] ∧
    ∀ (db' : Database) (qty : Nat),
      cart_qty (db'.add_to_cart user_id product_id qty) user_id product_id
        = cart_qty db' user_id product_id + qty := by
  constructor
  · rw [pair_rows_add_to_cart, cart_qty_add_to_cart]
    have hz : cart_qty db user_id product_id = 0 := by
      unfold cart_qty
      rw [h0]
      rfl
    rw [hz]
  · intro db' qty
    exact cart_qty_add_to_cart db' user_id product_id qty

/-- Witness for C7 at a concrete database. -/
def dbW7 : Database :=
  { products := [⟨1, "Sofa", "d", 1000, "c", [], 3, true⟩]
    cart := [⟨4, 2, 5⟩] }

theorem claim7_witness :
    (dbW7.cart.find? fun c => c.user_id == 9 && c.product_id == 1) = none ∧
    pair_rows ((dbW7.add_to_cart 9 1 1).add_to_cart 9 1 1) 9 1
      = [⟨9, 1, 2⟩] ∧
    ∀ (db' : Database) (qty : Nat),
      cart_qty (db'.add_to_cart 9 1 qty) 9 1 = cart_qty db' 9 1 + qty :=
  ⟨by decide, claim7_add_to_cart_accumulates dbW7 9 1 (by decide)⟩

end FurnitureModel

/-! ### C4: add-to-cart validation (corrected) -/

namespace FurnitureModel

/-- Concrete database for C4: product 1 exists but is soft-deleted
(is_active = false), and the cart is empty. -/
def dbC4 : Database :=
  { products := [⟨1, "Sofa", "d", 1000, "c", [], 3, false⟩] }

/-- C4 counterexample: the add-to-cart handler does not re-check the
active flag.  On a database whose only product is inactive, the handler
reports success and inserts a cart row, so the claimed
inactive-product-fails-and-cart-unchanged behaviour is false. -/
theorem claim4_counterexample :
    (dbC4.get_product_by_id 1).map ProductRow.is_active = some false ∧
    (FurnitureBot.add_to_cart dbC4 9 1).2.1 = .added ∧
    (FurnitureBot.add_to_cart dbC4 9 1).1.cart ≠ dbC4.cart := by
  refine ⟨by decide, by decide, by decide⟩

/-- C4 amended: the add-to-cart operation re-validates only that the
product row exists.  A missing product id fails (not-found alert) with
the database — in particular the cart — unchanged and no state change;
an existing product, active or not, is accumulated into the cart. -/
theorem claim4_add_to_cart_validation (db : Database) (user_id product_id : Nat) :
    (db.get_product_by_id product_id = none →
      FurnitureBot.add_to_cart db user_id product_id
        = (db, .notFound, .PRODUCT_VIEW)) ∧
    (∀ p, db.get_product_by_id product_id = some p →
      FurnitureBot.add_to_cart db user_id product_id
        = (db.add_to_cart user_id product_id 1, .added, .PRODUCT_VIEW) ∧
      cart_qty (FurnitureBot.add_to_cart db user_id product_id).1
          user_id product_id
        = cart_qty db user_id product_id + 1) := by
  constructor
  · intro h
    unfold FurnitureBot.add_to_cart
    rw [h]
  · intro p h
    unfold FurnitureBot.add_to_cart
    rw [h]
    exact ⟨rfl, cart_qty_add_to_cart db user_id product_id 1⟩

/-- Witness for C4 amended, covering both branches at concrete inputs:
product 2 is missing from `dbC4`, product 1 is present (inactive). -/
theorem claim4_witness :
    (dbC4.get_product_by_id 2 = none ∧
      FurnitureBot.add_to_cart dbC4 9 2 = (dbC4, .notFound, .PRODUCT_VIEW)) ∧
    (dbC4.get_product_by_id 1
        = some (⟨1, "Sofa", "d", 1000, "c", [], 3, false⟩ : ProductRow) ∧
      cart_qty (FurnitureBot.add_to_cart dbC4 9 1).1 9 1 = cart_qty dbC4 9 1 + 1) :=
  ⟨⟨by decide, (claim4_add_to_cart_validation dbC4 9 2).1 (by decide)⟩,
   ⟨by decide,
    ((claim4_add_to_cart_validation dbC4 9 1).2
      (⟨1, "Sofa", "d", 1000, "c", [], 3, false⟩ : ProductRow) (by decide)).2⟩⟩

end FurnitureModel

/-! ### C9 and C10: soft delete, active listings, cart reads -/

namespace FurnitureModel

theorem mem_listing_iff (db : Database) (cat : String) (p : ProductRow) :
    p ∈ db.get_products_by_category cat ↔
      p ∈ db.products ∧ p.category = cat ∧ p.is_active = true := by
  unfold Database.get_products_by_category
  rw [(List.perm_insertionSort newestFirst _).mem_iff, List.mem_filter]
  simp [Bool.and_eq_true, and_assoc]

theorem delete_product_products (db : Database) (pid : Nat) :
    (db.delete_product pid).products
      = db.products.map fun p =>
          if p.id == pid then { p with is_active := false } else p := rfl

/-- C9: soft-deleting a product removes it from the active listing of
every category; the listing shows only active rows of the category,
newest first; the order ledger and every other field of every product
row are untouched by the deletion. -/
theorem claim9_soft_delete_frame (db : Database) (pid : Nat) (cat : String) :
    (db.delete_product pid).orders = db.orders ∧
    (∀ p ∈ (db.delete_product pid).get_products_by_category cat, p.id ≠ pid) ∧
    (∀ p ∈ db.get_products_by_category cat,
      p.is_active = true ∧ p.category = cat) ∧
    List.Sorted newestFirst (db.get_products_by_category cat) ∧
    (∀ p ∈ db.products, ∃ q ∈ (db.delete_product pid).products,
      q.id = p.id ∧ q.name = p.name ∧ q.description = p.description ∧
      q.price = p.price ∧ q.category = p.category ∧ q.images = p.images ∧
      q.created_at = p.created_at ∧
      (p.id ≠ pid → q.is_active = p.is_active)) := by
  refine ⟨rfl, ?_, ?_, ?_, ?_⟩
  · intro p hp
    obtain ⟨hmem, _, hact⟩ :=
      (mem_listing_iff (db.delete_product pid) cat p).mp hp
    rw [delete_product_products] at hmem
    obtain ⟨q, hq, hEq⟩ := List.mem_map.mp hmem
    by_cases hid : q.id = pid
    · exfalso
      rw [if_pos (by simp [hid])] at hEq
      rw [← hEq] at hact
      simp at hact
    · rw [if_neg (by simp [hid])] at hEq
      rw [← hEq]
      exact hid
  · intro p hp
    obtain ⟨_, hcat, hact⟩ := (mem_listing_iff db cat p).mp hp
    exact ⟨hact, hcat⟩
  · exact List.sorted_insertionSort newestFirst _
  · intro p hp
    rw [delete_product_products]
    by_cases hid : p.id = pid
    · refine ⟨{ p with is_active := false }, List.mem_map.mpr ⟨p, hp, ?_⟩,
        rfl, rfl, rfl, rfl, rfl, rfl, rfl, fun hc => absurd hid hc⟩
      simp [hid]
    · refine ⟨p, List.mem_map.mpr ⟨p, hp, ?_⟩,
        rfl, rfl, rfl, rfl, rfl, rfl, rfl, fun _ => rfl⟩
      simp [hid]

/-- Witness database for C9: product 1 (to be deleted) and product 2,
both active, in the same category. -/
def dbW9 : Database :=
  { products := [⟨1, "Sofa", "d", 1000, "c", [], 3, true⟩,
                 ⟨2, "Chair", "d", 500, "c", [], 7, true⟩]
    orders := [⟨1, 9, [⟨1, "Sofa", 1000, 1, 1000⟩], 1000, "p", "a", "", "new"⟩] }

def rowW9 : ProductRow := ⟨2, "Chair", "d", 500, "c", [], 7, true⟩

theorem claim9_witness :
    (dbW9.delete_product 1).orders = dbW9.orders ∧
    rowW9.id ≠ 1 ∧
    (rowW9.is_active = true ∧ rowW9.category = "c") ∧
    List.Sorted newestFirst (dbW9.get_products_by_category "c") ∧
    (∃ q ∈ (dbW9.delete_product 1).products,
      q.id = rowW9.id ∧ q.name = rowW9.name ∧ q.description = rowW9.description ∧
      q.price = rowW9.price ∧ q.category = rowW9.category ∧
      q.images = rowW9.images ∧ q.created_at = rowW9.created_at ∧
      (rowW9.id ≠ 1 → q.is_active = rowW9.is_active)) :=
  ⟨(claim9_soft_delete_frame dbW9 1 "c").1,
   (claim9_soft_delete_frame dbW9 1 "c").2.1 rowW9 (by decide),
   (claim9_soft_delete_frame dbW9 1 "c").2.2.1 rowW9 (by decide),
   (claim9_soft_delete_frame dbW9 1 "c").2.2.2.1,
   (claim9_soft_delete_frame dbW9 1 "c").2.2.2.2 rowW9 (by decide)⟩

/-- C10: a cart read joins against products and keeps only rows whose
product is currently active; soft-deleting a product therefore hides its
cart rows from reads while the cart table itself keeps them. -/
theorem claim10_cart_reads_active_only (db : Database) (user_id pid : Nat) :
    (∀ it ∈ db.get_cart_items user_id,
      ∃ p ∈ db.products, p.id = it.product_id ∧ p.is_active = true) ∧
    (∀ it ∈ (db.delete_product pid).get_cart_items user_id,
      it.product_id ≠ pid) ∧
    (db.delete_product pid).cart = db.cart := by
  refine ⟨?_, ?_, rfl⟩
  · intro it hit
    unfold Database.get_cart_items at hit
    rw [List.mem_filterMap] at hit
    obtain ⟨c, _, hsome⟩ := hit
    rw [Option.bind_eq_some] at hsome
    obtain ⟨p, hfind, hf⟩ := hsome
    have hact : p.is_active = true := by
      by_contra hno
      rw [if_neg hno] at hf
      exact Option.noConfusion hf
    rw [if_pos hact] at hf
    have hid : p.id = c.product_id := by
      have := List.find?_some hfind
      simpa using this
    refine ⟨p, List.mem_of_find?_eq_some hfind, ?_, hact⟩
    rw [← Option.some.inj hf]
    exact hid
  · intro it hit
    unfold Database.get_cart_items at hit
    rw [List.mem_filterMap] at hit
    obtain ⟨c, _, hsome⟩ := hit
    rw [Option.bind_eq_some] at hsome
    obtain ⟨p, hfind, hf⟩ := hsome
    have hact : p.is_active = true := by
      by_contra hno
      rw [if_neg hno] at hf
      exact Option.noConfusion hf
    rw [if_pos hact] at hf
    have hid : p.id = c.product_id := by
      have := List.find?_some hfind
      simpa using this
    have hitid : it.product_id = c.product_id := by
      rw [← Option.some.inj hf]
    intro hcontra
    have hppid : p.id = pid := by rw [hid, ← hitid, hcontra]
    have hmem : p ∈ (db.delete_product pid).products :=
      List.mem_of_find?_eq_some hfind
    rw [delete_product_products] at hmem
    obtain ⟨q, _, hEq⟩ := List.mem_map.mp hmem
    by_cases hqid : q.id = pid
    · rw [if_pos (by simp [hqid])] at hEq
      rw [← hEq] at hact
      simp at hact
    · rw [if_neg (by simp [hqid])] at hEq
      rw [← hEq] at hppid
      exact hqid hppid

/-- Witness database for C10: one active product, one cart row for it. -/
def dbW10 : Database :=
  { products := [⟨3, "Bed", "d", 700, "c", [], 1, true⟩]
    cart := [⟨9, 3, 1⟩] }

def itemW10 : CartItem := ⟨3, 1, "Bed", 700⟩

theorem claim10_witness :
    (∃ p ∈ dbW10.products, p.id = itemW10.product_id ∧ p.is_active = true) ∧
    (∀ it ∈ (dbW10.delete_product 3).get_cart_items 9, it.product_id ≠ 3) ∧
    (dbW10.delete_product 3).cart = dbW10.cart :=
  ⟨(claim10_cart_reads_active_only dbW10 9 3).1 itemW10 (by decide),
   (claim10_cart_reads_active_only dbW10 9 3).2.1,
   (claim10_cart_reads_active_only dbW10 9 3).2.2⟩

end FurnitureModel

/-! ### C5: authorization at the delete transitions (corrected) -/

namespace FurnitureModel

/-- Concrete database for C5: no admin ids configured, no user rows (so
user 2 is not an admin by either test), one active product. -/
def dbC5 : Database :=
  { products := [⟨1, "Table", "d", 100, "c", [], 0, true⟩] }

/-- C5 counterexample: the confirm-delete transition does not re-check
authorization.  A user who is neither in the admin id set nor flagged
is_admin sends the confirm-delete event for product 1: the product's
active flag is flipped to false and the dialog moves to CATALOG, so the
claimed unauthorized-reject-with-no-change behaviour is false for the
delete confirmation. -/
theorem claim5_counterexample :
    FurnitureBot.is_admin [] dbC5 2 = false ∧
    ((FurnitureBot.confirm_delete_product dbC5 {} 2 1).1.products.find? fun p =>
        p.id == 1).map ProductRow.is_active = some false ∧
    (FurnitureBot.confirm_delete_product dbC5 {} 2 1).1 ≠ dbC5 ∧
    (FurnitureBot.confirm_delete_product dbC5 {} 2 1).2 ≠ DState.PRODUCT_VIEW := by
  refine ⟨by decide, by decide, by decide, by decide⟩

/-- C5 amended: the delete-product request does re-check authorization
at the transition (a non-admin gets an unauthorized outcome with the
database — hence every active flag — unchanged and the dialog kept in
PRODUCT_VIEW), but the delete confirmation performs the soft delete
without any authorization re-check, for every sender. -/
theorem claim5_delete_authorization :
    (∀ (adminIds : List Nat) (db : Database) (user_id product_id : Nat),
      FurnitureBot.is_admin adminIds db user_id = false →
        FurnitureBot.delete_product adminIds db user_id product_id
          = (db, .unauthorized, .PRODUCT_VIEW)) ∧
    (∀ (db : Database) (ud : UserData) (user_id product_id : Nat),
      FurnitureBot.confirm_delete_product db ud user_id product_id
        = (db.delete_product product_id, .CATALOG) ∧
      ∀ p ∈ (FurnitureBot.confirm_delete_product db ud user_id product_id).1.products,
        p.id = product_id → p.is_active = false) := by
  constructor
  · intro adminIds db user_id product_id h
    unfold FurnitureBot.delete_product
    rw [h]
    rfl
  · intro db ud user_id product_id
    refine ⟨rfl, ?_⟩
    intro p hp hpid
    have hmem : p ∈ (db.delete_product product_id).products := hp
    rw [delete_product_products] at hmem
    obtain ⟨q, _, hEq⟩ := List.mem_map.mp hmem
    by_cases hqid : q.id = product_id
    · rw [if_pos (by simp [hqid])] at hEq
      rw [← hEq]
    · rw [if_neg (by simp [hqid])] at hEq
      rw [← hEq] at hpid
      exact absurd hpid hqid

/-- Witness for C5 amended at concrete inputs: the unauthorized request
leaves `dbC5` untouched, and the confirm transition deletes product 1
for the non-admin sender 2. -/
theorem claim5_witness :
    FurnitureBot.delete_product [] dbC5 2 1
      = (dbC5, .unauthorized, .PRODUCT_VIEW) ∧
    FurnitureBot.confirm_delete_product dbC5 {} 2 1
      = (dbC5.delete_product 1, .CATALOG) ∧
    (⟨1, "Table", "d", 100, "c", [], 0, false⟩ : ProductRow).is_active = false :=
  ⟨claim5_delete_authorization.1 [] dbC5 2 1 (by decide),
   (claim5_delete_authorization.2 dbC5 {} 2 1).1,
   (claim5_delete_authorization.2 dbC5 {} 2 1).2
     (⟨1, "Table", "d", 100, "c", [], 0, false⟩ : ProductRow)
     (by decide) (by decide)⟩

end FurnitureModel

/-! ### C6: cancel transition (corrected) -/

namespace FurnitureModel

/-- C6 amended: the cancel command is a ConversationHandler fallback, so
it is admitted from every dialog state; it unconditionally re-registers
the user and returns the session to MAIN_MENU, but it leaves the whole
`user_data` bag — in-progress drafts and navigation cursors included —
exactly as it was, discarding nothing. -/
theorem claim6_cancel_keeps_session_data (adminIds : List Nat) (tg : TgUser)
    (c : Config) :
    (FurnitureBot.cancel adminIds tg c).state = DState.MAIN_MENU ∧
    (FurnitureBot.cancel adminIds tg c).ud = c.ud ∧
    (FurnitureBot.cancel adminIds tg c).ud.new_product = c.ud.new_product ∧
    (FurnitureBot.cancel adminIds tg c).ud.current_category
      = c.ud.current_category := by
  exact ⟨rfl, rfl, rfl, rfl⟩

/-- Session bag for the C6 counterexample: a draft product under
authoring and a category cursor are present. -/
def udC6 : UserData :=
  { new_product := some { name := "Wardrobe" }
    current_category := some "Storage" }

/-- C6 counterexample: processing cancel from WAITING_NAME with a draft
in progress does not discard the draft or the navigation cursor — both
survive in the session, so the claimed discard-on-cancel is false. -/
theorem claim6_counterexample :
    (FurnitureBot.cancel [] { id := 5 } ⟨{}, udC6, .WAITING_NAME⟩).ud.new_product
      ≠ none ∧
    (FurnitureBot.cancel [] { id := 5 } ⟨{}, udC6, .WAITING_NAME⟩).ud.current_category
      ≠ none ∧
    (FurnitureBot.cancel [] { id := 5 } ⟨{}, udC6, .WAITING_NAME⟩).state
      = DState.MAIN_MENU := by
  refine ⟨by decide, by decide, by decide⟩

end FurnitureModel

/-! ### C8: per-field validation before advancing -/

namespace FurnitureModel

/-- Witness session bag for C8: a draft product under authoring. -/
def udW8 : UserData := { new_product := some {} }

set_option maxRecDepth 40000 in
/-- C8 counterexample: the price prompt does not accept exactly the
positive decimals.  The float call also accepts nan — every comparison
with nan is false, so the `price <= 0` guard passes — and underscored
digit groups, neither of which parses as a positive decimal; and the
positive decimal 1e-999 is rejected, because it converts to +0.0.  The
acceptance biconditional of the original claim therefore fails in both
directions. -/
theorem claim8_counterexample :
    ((FurnitureBot.get_product_price udW8 "nan").2 = DState.WAITING_CATEGORY ∧
      decimalValue (normalize_price_text "nan") = none) ∧
    ((FurnitureBot.get_product_price udW8 "1_000").2 = DState.WAITING_CATEGORY ∧
      decimalValue (normalize_price_text "1_000") = none) ∧
    (FurnitureBot.get_product_price udW8 "1e-999" = (udW8, .WAITING_PRICE) ∧
      ∃ q, decimalValue (normalize_price_text "1e-999") = some q ∧ 0 < q) := by
  refine ⟨⟨by decide, by decide⟩, ⟨by decide, by decide⟩,
    ⟨by decide, ⟨mkRat 1 (pow10 999), by decide, by decide⟩⟩⟩

/-- C8 amended: each free-text field is validated before the event is
accepted; a failing input leaves the session bag untouched and
re-prompts in the same state.  A (stripped) name shorter than 3 is
rejected in WAITING_NAME, a description shorter than 10 in
WAITING_DESCRIPTION, a phone shorter than 10 in ORDER_PHONE, an address
shorter than 10 in ORDER_ADDRESS; and the price input advances out of
WAITING_PRICE exactly when its comma/space-normalized form parses under
the Python float constructor — a grammar that further admits nan, the
signed infinity spellings and underscored digit groups — to a value the
`price <= 0` guard does not reject; otherwise it re-prompts with the
bag untouched. -/
theorem claim8_field_validation :
    (∀ (ud : UserData) (s : String), (pyStrip s).length < 3 →
      FurnitureBot.get_product_name ud s = (ud, .WAITING_NAME)) ∧
    (∀ (ud : UserData) (s : String), (pyStrip s).length < 10 →
      FurnitureBot.get_product_description ud s = (ud, .WAITING_DESCRIPTION)) ∧
    (∀ (ud : UserData) (s : String), (pyStrip s).length < 10 →
      FurnitureBot.get_order_phone ud s = (ud, .ORDER_PHONE)) ∧
    (∀ (ud : UserData) (s : String), (pyStrip s).length < 10 →
      FurnitureBot.get_order_address ud s = (ud, .ORDER_ADDRESS)) ∧
    (∀ (ud : UserData) (s : String),
      ((FurnitureBot.get_product_price ud s).2 = DState.WAITING_CATEGORY ↔
        ∃ v, pyFloat (normalize_price_text s) = some v ∧ pyLeZero v = false)) ∧
    (∀ (ud : UserData) (s : String),
      (FurnitureBot.get_product_price ud s).2 ≠ DState.WAITING_CATEGORY →
        FurnitureBot.get_product_price ud s = (ud, .WAITING_PRICE)) := by
  refine ⟨?_, ?_, ?_, ?_, ?_, ?_⟩
  · intro ud s h
    unfold FurnitureBot.get_product_name
    rw [if_pos h]
  · intro ud s h
    unfold FurnitureBot.get_product_description
    rw [if_pos h]
  · intro ud s h
    unfold FurnitureBot.get_order_phone
    rw [if_pos h]
  · intro ud s h
    unfold FurnitureBot.get_order_address
    rw [if_pos h]
  · intro ud s
    unfold FurnitureBot.get_product_price
    cases hp : pyFloat (normalize_price_text s) with
    | none => simp
    | some v =>
      dsimp only
      cases hv : pyLeZero v with
      | true =>
        rw [if_pos rfl]
        constructor
        · intro h
          exact absurd h (by simp)
        · rintro ⟨v2, hv2, hfalse⟩
          injection hv2 with h12
          rw [← h12, hv] at hfalse
          exact Bool.noConfusion hfalse
      | false =>
        rw [if_neg (by decide)]
        constructor
        · intro _
          exact ⟨v, rfl, hv⟩
        · intro _
          trivial
  · intro ud s h
    unfold FurnitureBot.get_product_price at h ⊢
    cases hp : pyFloat (normalize_price_text s) with
    | none => rfl
    | some v =>
      rw [hp] at h
      dsimp only at h ⊢
      cases hv : pyLeZero v with
      | true => rw [if_pos rfl]
      | false =>
        rw [if_neg (by simp [hv])] at h
        exact absurd rfl h

set_option maxRecDepth 40000 in
theorem claim8_witness :
    FurnitureBot.get_product_name udW8 "ab" = (udW8, .WAITING_NAME) ∧
    FurnitureBot.get_product_description udW8 "too short" = (udW8, .WAITING_DESCRIPTION) ∧
    FurnitureBot.get_order_phone udW8 " 123 " = (udW8, .ORDER_PHONE) ∧
    FurnitureBot.get_order_address udW8 "Moscow" = (udW8, .ORDER_ADDRESS) ∧
    (FurnitureBot.get_product_price udW8 "1,5").2 = DState.WAITING_CATEGORY ∧
    FurnitureBot.get_product_price udW8 "-3" = (udW8, .WAITING_PRICE) :=
  ⟨claim8_field_validation.1 udW8 "ab" (by decide),
   claim8_field_validation.2.1 udW8 "too short" (by decide),
   claim8_field_validation.2.2.1 udW8 " 123 " (by decide),
   claim8_field_validation.2.2.2.1 udW8 "Moscow" (by decide),
   (claim8_field_validation.2.2.2.2.1 udW8 "1,5").mpr
     ⟨PyFloat.finite (mkRat 3 2), by decide, by decide⟩,
   claim8_field_validation.2.2.2.2.2 udW8 "-3" (by decide)⟩

end FurnitureModel

/-! ### C1, C2, C3: checkout snapshot, duplicate commit, commit effects -/

namespace FurnitureModel

theorem get_order_phone_order_items (ud : UserData) (s : String) :
    (FurnitureBot.get_order_phone ud s).1.order_items = ud.order_items := by
  unfold FurnitureBot.get_order_phone
  dsimp only
  split <;> rfl

theorem get_order_address_order_items (ud : UserData) (s : String) :
    (FurnitureBot.get_order_address ud s).1.order_items = ud.order_items := by
  unfold FurnitureBot.get_order_address
  dsimp only
  split <;> rfl

theorem get_order_comment_text_order_items (ud : UserData) (s : String) :
    (FurnitureBot.get_order_comment_text ud s).1.order_items = ud.order_items := rfl

/-- No event deliverable during the order flow touches the checkout
snapshot key of the session bag. -/
theorem stepMid_ud_order_items (user_id : Nat) (c : Config) (ev : MidEvent) :
    (stepMid user_id c ev).ud.order_items = c.ud.order_items := by
  cases ev with
  | cartOp op => rfl
  | text s =>
    cases c with
    | mk db ud st =>
      cases st <;>
        simp [stepMid, get_order_phone_order_items,
          get_order_address_order_items, get_order_comment_text_order_items]

theorem foldl_stepMid_order_items (user_id : Nat) (evs : List MidEvent)
    (c : Config) :
    (evs.foldl (stepMid user_id) c).ud.order_items = c.ud.order_items := by
  induction evs generalizing c with
  | nil => rfl
  | cons e es ih => rw [List.foldl_cons, ih, stepMid_ud_order_items]

theorem checkout_spec (db : Database) (ud : UserData) (user_id : Nat)
    (h : db.get_cart_items user_id ≠ []) :
    FurnitureBot.checkout db ud user_id
      = ⟨db, { ud with order_items := some (db.get_cart_items user_id) },
          .ORDER_PHONE⟩ := by
  unfold FurnitureBot.checkout
  dsimp only
  rw [if_neg (by simp [List.isEmpty_iff, h])]

theorem finish_order_spec (db : Database) (ud : UserData) (user_id : Nat)
    (items : List CartItem) (hud : ud.order_items = some items)
    (hne : items ≠ []) :
    FurnitureBot.finish_order db ud user_id
      = ⟨((db.create_order user_id (FurnitureBot.order_products_of items)
            (FurnitureBot.order_total_of items) (ud.order_phone.getD "")
            (ud.order_address.getD "") (ud.order_comment.getD "")).2).clear_cart
          user_id,
         { ud with
           order_items := none
           order_phone := none
           order_address := none
           order_comment := none },
         .MAIN_MENU⟩ := by
  unfold FurnitureBot.finish_order
  rw [hud]
  dsimp only [Option.getD_some]
  rw [if_neg (by simp [List.isEmpty_iff, hne])]

theorem finish_order_db_of_no_snapshot (db : Database) (ud : UserData)
    (user_id : Nat) (h : ud.order_items = none) :
    (FurnitureBot.finish_order db ud user_id).db = db := by
  unfold FurnitureBot.finish_order
  rw [h]
  rfl

theorem get_cart_items_clear_cart (db : Database) (user_id : Nat) :
    (db.clear_cart user_id).get_cart_items user_id = [] := by
  unfold Database.get_cart_items Database.clear_cart
  dsimp only
  rw [filter_not_filter]
  rfl

theorem order_total_eq_sum_lines (items : List CartItem) :
    FurnitureBot.order_total_of items
      = ((FurnitureBot.order_products_of items).map fun l =>
          l.price * ratOfNat l.quantity).sum := by
  unfold FurnitureBot.order_total_of FurnitureBot.order_products_of
  rw [List.map_map]
  rfl

/-- C1: when checkout is accepted from CART_VIEW (non-empty cart read),
the cart is snapshotted at entry, and whatever sequence of cart
mutations and order-flow text events happens between entering
ORDER_PHONE and the final finish-order event, the committed order's
line items are exactly the entry-time snapshot. -/
theorem claim1_checkout_snapshot (db : Database) (ud : UserData)
    (user_id : Nat) (evs : List MidEvent)
    (hne : db.get_cart_items user_id ≠ []) :
    ∃ o : OrderRow,
      (FurnitureBot.finish_order
          (evs.foldl (stepMid user_id) (FurnitureBot.checkout db ud user_id)).db
          (evs.foldl (stepMid user_id) (FurnitureBot.checkout db ud user_id)).ud
          user_id).db.orders
        = (evs.foldl (stepMid user_id)
            (FurnitureBot.checkout db ud user_id)).db.orders ++ [o] ∧
      o.products = FurnitureBot.order_products_of (db.get_cart_items user_id) := by
  have hitems :
      (evs.foldl (stepMid user_id)
        (FurnitureBot.checkout db ud user_id)).ud.order_items
        = some (db.get_cart_items user_id) := by
    rw [foldl_stepMid_order_items, checkout_spec db ud user_id hne]
  rw [finish_order_spec _ _ user_id (db.get_cart_items user_id) hitems hne]
  exact ⟨_, rfl, rfl⟩

/-- C2: with events for one user serialized, a duplicated finish-order
event after a successful commit finds the snapshot already popped and
creates no second order: two finish events after one checkout append
exactly one order row. -/
theorem claim2_duplicate_finish_single_order (db : Database) (ud : UserData)
    (user_id : Nat) (hne : db.get_cart_items user_id ≠ []) :
    ((FurnitureBot.finish_order
        (FurnitureBot.finish_order (FurnitureBot.checkout db ud user_id).db
          (FurnitureBot.checkout db ud user_id).ud user_id).db
        (FurnitureBot.finish_order (FurnitureBot.checkout db ud user_id).db
          (FurnitureBot.checkout db ud user_id).ud user_id).ud
        user_id).db.orders).length
      = db.orders.length + 1 := by
  rw [checkout_spec db ud user_id hne]
  dsimp only
  rw [finish_order_spec db
    { ud with order_items := some (db.get_cart_items user_id) } user_id
    (db.get_cart_items user_id) rfl hne]
  dsimp only
  rw [finish_order_db_of_no_snapshot _ _ user_id rfl]
  simp [Database.clear_cart, Database.create_order]

/-- C3: committing a non-empty checkout snapshot clears the committing
user's cart (a subsequent cart read is empty) and records a total equal
to the sum over the order's line items of unit price times quantity. -/
theorem claim3_commit_clears_cart_and_total (db : Database) (ud : UserData)
    (user_id : Nat) (items : List CartItem)
    (hud : ud.order_items = some items) (hne : items ≠ []) :
    (FurnitureBot.finish_order db ud user_id).db.get_cart_items user_id = [] ∧
    ∃ o : OrderRow,
      (FurnitureBot.finish_order db ud user_id).db.orders = db.orders ++ [o] ∧
      o.total_amount
        = (o.products.map fun l => l.price * ratOfNat l.quantity).sum := by
  rw [finish_order_spec db ud user_id items hud hne]
  refine ⟨get_cart_items_clear_cart _ user_id, ⟨_, rfl, ?_⟩⟩
  exact order_total_eq_sum_lines items

/-- Witness database for C1 and C2: two active products, user 7 has
product 1 in the cart. -/
def dbW1 : Database :=
  { products := [⟨1, "Sofa", "d", 1000, "c", [], 3, true⟩,
                 ⟨2, "Chair", "d", 500, "c", [], 7, true⟩]
    cart := [⟨7, 1, 2⟩] }

/-- Events for the C1 witness: an add-to-cart, a phone text, and a
clear-cart, all between checkout entry and the finish event. -/
def evsW1 : List MidEvent :=
  [.cartOp (.add 2 1), .text "+71234567890", .cartOp .clear]

theorem claim1_witness :
    dbW1.get_cart_items 7 ≠ [] ∧
    ∃ o : OrderRow,
      (FurnitureBot.finish_order
          (evsW1.foldl (stepMid 7) (FurnitureBot.checkout dbW1 {} 7)).db
          (evsW1.foldl (stepMid 7) (FurnitureBot.checkout dbW1 {} 7)).ud
          7).db.orders
        = (evsW1.foldl (stepMid 7)
            (FurnitureBot.checkout dbW1 {} 7)).db.orders ++ [o] ∧
      o.products = FurnitureBot.order_products_of (dbW1.get_cart_items 7) :=
  ⟨by decide, claim1_checkout_snapshot dbW1 {} 7 evsW1 (by decide)⟩

theorem claim2_witness :
    dbW1.get_cart_items 7 ≠ [] ∧
    ((FurnitureBot.finish_order
        (FurnitureBot.finish_order (FurnitureBot.checkout dbW1 {} 7).db
          (FurnitureBot.checkout dbW1 {} 7).ud 7).db
        (FurnitureBot.finish_order (FurnitureBot.checkout dbW1 {} 7).db
          (FurnitureBot.checkout dbW1 {} 7).ud 7).ud
        7).db.orders).length
      = dbW1.orders.length + 1 :=
  ⟨by decide, claim2_duplicate_finish_single_order dbW1 {} 7 (by decide)⟩

/-- Witness snapshot and session bag for C3. -/
def itemsW3 : List CartItem := [⟨1, 2, "Sofa", 1000⟩]

def udW3 : UserData :=
  { order_items := some itemsW3
    order_phone := some "+71234567890" }

theorem claim3_witness :
    udW3.order_items = some itemsW3 ∧ itemsW3 ≠ [] ∧
    ((FurnitureBot.finish_order dbW1 udW3 7).db.get_cart_items 7 = [] ∧
     ∃ o : OrderRow,
       (FurnitureBot.finish_order dbW1 udW3 7).db.orders
         = dbW1.orders ++ [o] ∧
       o.total_amount
         = (o.products.map fun l => l.price * ratOfNat l.quantity).sum) :=
  ⟨rfl, by decide,
   claim3_commit_clears_cart_and_total dbW1 udW3 7 itemsW3 rfl (by decide)⟩

end FurnitureModel
